import Mathlib

/-!
Verification of the CPU frequency self-test (classb_freq) of the XMEGA
Class B demo application against its design description.

The header classb_freq.h provides the derived compile-time constants
(CLASSB_TC_FREQ, CLASSB_TC_MAX_DIFF, CLASSB_TC_MAX_OVF_COUNT) and declares
the two interrupt handlers classb_freq_callback (deviation evaluator, run
on each RTC reference tick) and classb_freq_tc_callback (overflow
accumulator, run on each 16-bit TC overflow).  The handler bodies live in
classb_freq.c, which is not part of this tree; they are modelled here from
the design description, as noted on each definition.
-/

namespace ClassbFreq

/-- The macro CLASSB_TC_PER: the 16-bit TC period, fixed at 0xFFFF so that
the counter wraps at the full 16-bit range. -/
def CLASSB_TC_PER : ℕ := 0xFFFF

/-- The macro CLASSB_TC_FREQ, in the source
(uint32_t)(F_CPU / CLASSB_TC_PRESCALER): integer division of the CPU
frequency by the prescaler, narrowed to 32 bits by the cast. -/
def CLASSB_TC_FREQ (f_cpu prescaler : ℕ) : ℕ :=
  (f_cpu / prescaler) % 2 ^ 32

/-- The macro CLASSB_TC_MAX_DIFF, in the source
(uint32_t)((1e0L * CLASSB_TC_COUNT_REF * CLASSB_TC_TOLERANCE) / 100UL).
The long double product and quotient are modelled as exact integer
arithmetic floored at the cast; this coincides with the macro whenever the
floating computation incurs no rounding, which holds at every concrete
value this file evaluates it on. -/
def CLASSB_TC_MAX_DIFF (count_ref tolerance : ℕ) : ℕ :=
  (count_ref * tolerance) / 100

/-- The macro CLASSB_TC_MAX_OVF_COUNT, in the source
(uint16_t)((CLASSB_TC_COUNT_REF + CLASSB_TC_MAX_DIFF) >> 16).
Both operands are uint32_t, so the sum is taken modulo 2^32, shifted right
by 16, and the final uint16_t cast takes the result modulo 2^16. -/
def CLASSB_TC_MAX_OVF_COUNT (count_ref max_diff : ℕ) : ℕ :=
  (((count_ref + max_diff) % 2 ^ 32) >>> 16) % 2 ^ 16

/-- The derived constants consumed by the deviation evaluator: the expected
TC count per reference period, the tolerated absolute deviation, and the
tolerated number of 16-bit overflows. -/
structure FreqConfig where
  count_ref : ℕ
  max_diff : ℕ
  max_ovf_count : ℕ
  deriving DecidableEq, Repr

/-- Modelled from the spec: the mutable runtime state shared by the two
interrupt handlers is the single unsigned 16-bit counter overflow_count
(classb_freq.c is not in the tree; the data model section gives its width
and lifecycle). -/
structure FreqState where
  overflow_count : ℕ
  deriving DecidableEq, Repr

/-- Modelled from the spec: the single fault kind.  An element of this type
stands for one synchronous invocation of CLASSB_ERROR_HANDLER_FREQ. -/
inductive FaultEvent where
  | freq_error
  deriving DecidableEq, Repr

/-- Modelled from the spec: the overflow accumulator
classb_freq_tc_callback (classb_freq.c is not in the tree).  Triggered on
every TC overflow; increments the 16-bit overflow_count by one. -/
def classb_freq_tc_callback (s : FreqState) : FreqState :=
  ⟨(s.overflow_count + 1) % 2 ^ 16⟩

/-- Modelled from the spec: the extended elapsed tick count, the
overflow_count used as the most significant word (bits 31 to 16) above the
raw 16-bit TC reading. -/
def classb_elapsed (ovf_count raw_count : ℕ) : ℕ :=
  (ovf_count <<< 16) + raw_count

/-- Modelled from the spec: the absolute difference between the elapsed
tick count and the reference count. -/
def classb_diff (cfg : FreqConfig) (elapsed : ℕ) : ℕ :=
  ((elapsed : ℤ) - (cfg.count_ref : ℤ)).natAbs

/-- Modelled from the spec: the deviation evaluator classb_freq_callback
(classb_freq.c is not in the tree).  Run on each RTC reference tick with
the current raw TC reading.  It checks the overflow count against
CLASSB_TC_MAX_OVF_COUNT first, then the absolute deviation against
CLASSB_TC_MAX_DIFF, reports at most one fault, and resets overflow_count
to zero whether the window passed or faulted.  The returned list records
the CLASSB_ERROR_HANDLER_FREQ invocations made before the handler
returns. -/
def classb_freq_callback (cfg : FreqConfig) (raw_count : ℕ) (s : FreqState) :
    FreqState × List FaultEvent :=
  let elapsed := classb_elapsed s.overflow_count raw_count
  let faults :=
    if cfg.max_ovf_count < s.overflow_count then [FaultEvent.freq_error]
    else if cfg.max_diff < classb_diff cfg elapsed then [FaultEvent.freq_error]
    else []
  (⟨0⟩, faults)

/-- Modelled from the spec: the two interrupt events.  A tc_ovf event runs
the overflow accumulator; an rtc_tick event runs the deviation evaluator
on the raw TC reading sampled at that instant. -/
inductive FreqEvent where
  | tc_ovf
  | rtc_tick (raw_count : ℕ)
  deriving DecidableEq, Repr

/-- Modelled from the spec: one atomic handler execution.  The concurrency
section mandates that the reference-tick handler runs with overflow
notifications masked, so each handler is a single atomic step and a system
history is an arbitrary interleaving, i.e. an arbitrary list of events. -/
def classb_step (cfg : FreqConfig) (s : FreqState) :
    FreqEvent → FreqState × List FaultEvent
  | FreqEvent.tc_ovf => (classb_freq_tc_callback s, [])
  | FreqEvent.rtc_tick raw => classb_freq_callback cfg raw s

/-- Modelled from the spec: run a history of interrupt events from a
state, collecting every fault report in order. -/
def classb_run (cfg : FreqConfig) (s : FreqState) :
    List FreqEvent → FreqState × List FaultEvent
  | [] => (s, [])
  | e :: es =>
    let r := classb_step cfg s e
    let r2 := classb_run cfg r.1 es
    (r2.1, r.2 ++ r2.2)

/-- The number of tc_ovf events in a history, i.e. how many increments the
overflow accumulator performs. -/
def classb_ovf_events : List FreqEvent → ℕ
  | [] => 0
  | FreqEvent.tc_ovf :: es => classb_ovf_events es + 1
  | FreqEvent.rtc_tick _ :: es => classb_ovf_events es

/-- The overflow_count values the deviation evaluator reads, one per
rtc_tick event of the history, in order. -/
def classb_reads (s : FreqState) : List FreqEvent → List ℕ
  | [] => []
  | FreqEvent.tc_ovf :: es => classb_reads (classb_freq_tc_callback s) es
  | FreqEvent.rtc_tick _ :: es => s.overflow_count :: classb_reads ⟨0⟩ es

/-- The evaluator resets the state to zero, so the state after a
reference-tick step is ⟨0⟩ regardless of configuration and reading. -/
theorem classb_callback_state (cfg : FreqConfig) (raw : ℕ) (s : FreqState) :
    (classb_freq_callback cfg raw s).1 = ⟨0⟩ := rfl

/-- Running a history step by step: the state after e :: es is the state
after running es from the state after e. -/
theorem classb_run_cons (cfg : FreqConfig) (s : FreqState) (e : FreqEvent)
    (es : List FreqEvent) :
    classb_run cfg s (e :: es) =
      ((classb_run cfg (classb_step cfg s e).1 es).1,
        (classb_step cfg s e).2 ++ (classb_run cfg (classb_step cfg s e).1 es).2) := rfl

/-- Claim C2: whenever overflow_count exceeds CLASSB_TC_MAX_OVF_COUNT, the
deviation evaluator reports a fault unconditionally, for every raw TC
reading — the overflow check precedes and short-circuits the deviation
comparison. -/
theorem classb_C2_overflow_check_first (cfg : FreqConfig) (raw : ℕ)
    (s : FreqState) (h : cfg.max_ovf_count < s.overflow_count) :
    (classb_freq_callback cfg raw s).2 = [FaultEvent.freq_error] := by
  simp [classb_freq_callback, h]

/-- Claim C2 witness: with max_ovf_count = 0, overflow_count = 1 and a raw
reading making the deviation zero (well within max_diff = 250), the fault
is still reported. -/
theorem classb_C2_witness :
    ((0 : ℕ) < 1 ∧ classb_diff ⟨66000, 250, 0⟩ (classb_elapsed 1 464) ≤ 250) ∧
    (classb_freq_callback ⟨66000, 250, 0⟩ 464 ⟨1⟩).2 = [FaultEvent.freq_error] :=
  ⟨by decide, classb_C2_overflow_check_first ⟨66000, 250, 0⟩ 464 ⟨1⟩ (by decide)⟩

/-- Claim C1: when the overflow-count check passes, the deviation evaluator
reports a fault exactly when the absolute difference between the elapsed
tick count and count_ref exceeds max_diff; and with max_diff derived from
a tolerance percentage, any elapsed count of at least
count_ref * (1 + tolerance/100 + ε) ticks with ε > 0 is reported as a
fault. -/
theorem classb_C1_deviation_fault_iff (cfg : FreqConfig) (tolerance raw : ℕ)
    (s : FreqState) (hovf : s.overflow_count ≤ cfg.max_ovf_count)
    (hdiff : cfg.max_diff = CLASSB_TC_MAX_DIFF cfg.count_ref tolerance)
    (hpos : 0 < cfg.count_ref) :
    ((classb_freq_callback cfg raw s).2 = [FaultEvent.freq_error] ↔
      cfg.max_diff < classb_diff cfg (classb_elapsed s.overflow_count raw)) ∧
    (∀ ε : ℚ, 0 < ε →
      (cfg.count_ref : ℚ) * (1 + (tolerance : ℚ) / 100 + ε) ≤
        (classb_elapsed s.overflow_count raw : ℚ) →
      (classb_freq_callback cfg raw s).2 = [FaultEvent.freq_error]) := by
  have hnot : ¬ cfg.max_ovf_count < s.overflow_count := Nat.not_lt.mpr hovf
  have hcb : (classb_freq_callback cfg raw s).2 =
      if cfg.max_diff < classb_diff cfg (classb_elapsed s.overflow_count raw)
      then [FaultEvent.freq_error] else [] := by
    simp [classb_freq_callback, hnot]
  constructor
  · rw [hcb]
    by_cases h : cfg.max_diff < classb_diff cfg (classb_elapsed s.overflow_count raw)
    · simp [h]
    · simp [h]
  · intro ε hε hle
    have hre : (0 : ℚ) < (cfg.count_ref : ℚ) := by exact_mod_cast hpos
    have hmd : (cfg.max_diff : ℚ) ≤ (cfg.count_ref : ℚ) * (tolerance : ℚ) / 100 := by
      rw [hdiff]
      calc ((CLASSB_TC_MAX_DIFF cfg.count_ref tolerance : ℕ) : ℚ)
          ≤ ((cfg.count_ref * tolerance : ℕ) : ℚ) / ((100 : ℕ) : ℚ) := Nat.cast_div_le
        _ = (cfg.count_ref : ℚ) * (tolerance : ℚ) / 100 := by push_cast; ring
    have hexp : (cfg.count_ref : ℚ) * (1 + (tolerance : ℚ) / 100 + ε) =
        (cfg.count_ref : ℚ) + (cfg.count_ref : ℚ) * (tolerance : ℚ) / 100 +
          (cfg.count_ref : ℚ) * ε := by ring
    have hprod : (0 : ℚ) < (cfg.count_ref : ℚ) * ε := mul_pos hre hε
    have h1 : ((cfg.count_ref + cfg.max_diff : ℕ) : ℚ) <
        ((classb_elapsed s.overflow_count raw : ℕ) : ℚ) := by
      push_cast
      linarith
    have h2 : cfg.count_ref + cfg.max_diff < classb_elapsed s.overflow_count raw := by
      exact_mod_cast h1
    have h3 : cfg.max_diff < classb_diff cfg (classb_elapsed s.overflow_count raw) := by
      rw [classb_diff]
      omega
    rw [hcb]
    simp [h3]

/-- Claim C1 witness: with count_ref = 1000, tolerance 25 percent
(max_diff = 250), no overflows and a raw reading of 1300 the fault
condition of the equivalence holds (diff = 300 > 250). -/
theorem classb_C1_witness :
    ((0 : ℕ) ≤ 0 ∧ (250 : ℕ) = CLASSB_TC_MAX_DIFF 1000 25 ∧ (0 : ℕ) < 1000) ∧
    ((classb_freq_callback ⟨1000, 250, 0⟩ 1300 ⟨0⟩).2 = [FaultEvent.freq_error] ↔
      250 < classb_diff ⟨1000, 250, 0⟩ (classb_elapsed 0 1300)) :=
  ⟨by decide,
    (classb_C1_deviation_fault_iff ⟨1000, 250, 0⟩ 25 1300 ⟨0⟩ (by decide)
      (by decide) (by decide)).1⟩

/-- Claim C3: for a tick source advancing at exactly count_ref ticks per
reference period with zero overflows (count_ref being a representable
16-bit reading), the deviation evaluator never reports a fault, over any
number of consecutive reference periods. -/
theorem classb_C3_exact_rate_no_fault (cfg : FreqConfig) (n : ℕ)
    (hsize : cfg.count_ref < 2 ^ 16) :
    (classb_run cfg ⟨0⟩ (List.replicate n (FreqEvent.rtc_tick cfg.count_ref))).2 = [] := by
  induction n with
  | zero => rfl
  | succ n ih =>
    have hd : classb_diff cfg (classb_elapsed 0 cfg.count_ref) = 0 := by
      simp [classb_diff, classb_elapsed]
    have hstep : classb_freq_callback cfg cfg.count_ref ⟨0⟩ = (⟨0⟩, []) := by
      simp [classb_freq_callback, hd]
    rw [List.replicate_succ, classb_run_cons]
    simp [classb_step, hstep, ih]

/-- Claim C3 witness: three exact windows at count_ref = 1000 produce no
fault report. -/
theorem classb_C3_witness :
    (1000 : ℕ) < 2 ^ 16 ∧
    (classb_run ⟨1000, 250, 0⟩ ⟨0⟩
      (List.replicate 3 (FreqEvent.rtc_tick 1000))).2 = [] :=
  ⟨by decide, classb_C3_exact_rate_no_fault ⟨1000, 250, 0⟩ 3 (by decide)⟩

/-- Claim C5: with cpu_frequency two million and prescaler 64 the macro
CLASSB_TC_FREQ gives 31250; with count_ref = 1000 and tolerance 25 the
macro CLASSB_TC_MAX_DIFF gives 250; under those constants a raw elapsed
count of 1200 (diff 200) passes and a raw elapsed count of 1300
(diff 300) faults. -/
theorem classb_C5_example_values :
    CLASSB_TC_FREQ 2000000 64 = 31250 ∧
    CLASSB_TC_MAX_DIFF 1000 25 = 250 ∧
    classb_diff ⟨1000, 250, 0⟩ (classb_elapsed 0 1200) = 200 ∧
    classb_diff ⟨1000, 250, 0⟩ (classb_elapsed 0 1300) = 300 ∧
    (classb_freq_callback
      ⟨1000, CLASSB_TC_MAX_DIFF 1000 25, CLASSB_TC_MAX_OVF_COUNT 1000 250⟩
      1200 ⟨0⟩).2 = [] ∧
    (classb_freq_callback
      ⟨1000, CLASSB_TC_MAX_DIFF 1000 25, CLASSB_TC_MAX_OVF_COUNT 1000 250⟩
      1300 ⟨0⟩).2 = [FaultEvent.freq_error] := by
  refine ⟨by decide, by decide, by decide, by decide, ?_, ?_⟩ <;> decide

/-- Claim C6: when the sum does not wrap 32 bits, CLASSB_TC_MAX_OVF_COUNT
is exactly (count_ref + max_diff) >> 16 — the threshold is biased upward
by the tolerance margin, and that formula is not equivalent to the
unbiased count_ref >> 16. -/
theorem classb_C6_max_ovf_formula (count_ref max_diff : ℕ)
    (h : count_ref + max_diff < 2 ^ 32) :
    CLASSB_TC_MAX_OVF_COUNT count_ref max_diff = (count_ref + max_diff) >>> 16 ∧
    ∃ r d : ℕ, r + d < 2 ^ 32 ∧ CLASSB_TC_MAX_OVF_COUNT r d ≠ r >>> 16 := by
  constructor
  · rw [CLASSB_TC_MAX_OVF_COUNT, Nat.mod_eq_of_lt h]
    have hlt : (count_ref + max_diff) >>> 16 < 2 ^ 16 := by
      rw [Nat.shiftRight_eq_div_pow]
      omega
    exact Nat.mod_eq_of_lt hlt
  · exact ⟨60000, 10000, by decide, by decide⟩

/-- Claim C6 witness: at count_ref = 60000 and max_diff = 10000 the sum is
below 2^32 and the constant equals the shifted sum (namely 1, while the
unbiased count_ref >> 16 would be 0). -/
theorem classb_C6_witness :
    (60000 + 10000 : ℕ) < 2 ^ 32 ∧
    CLASSB_TC_MAX_OVF_COUNT 60000 10000 = (60000 + 10000) >>> 16 :=
  ⟨by decide, (classb_C6_max_ovf_formula 60000 10000 (by decide)).1⟩

/-- Claim C7: after every deviation-evaluator invocation — after any
history whose last event is a reference tick, whatever faults occurred —
overflow_count is 0; and the overflow accumulator only ever increments the
16-bit counter by one, so the evaluator is the only reset point. -/
theorem classb_C7_reset_after_evaluation :
    (∀ (cfg : FreqConfig) (s : FreqState) (es : List FreqEvent) (raw : ℕ),
      (classb_run cfg s (es ++ [FreqEvent.rtc_tick raw])).1.overflow_count = 0) ∧
    (∀ s : FreqState,
      (classb_freq_tc_callback s).overflow_count = (s.overflow_count + 1) % 2 ^ 16) := by
  constructor
  · intro cfg s es raw
    induction es generalizing s with
    | nil => rfl
    | cons e es ih => exact ih (classb_step cfg s e).1
  · intro s
    rfl

/-- Claim C8: each evaluator invocation makes at most one fault report;
it reports exactly the single CLASSB_ERROR_HANDLER_FREQ call when either
failure condition holds (both conditions share that one reporting path),
and reports nothing when the evaluation passes. -/
theorem classb_C8_single_fault_path (cfg : FreqConfig) (raw : ℕ) (s : FreqState) :
    (classb_freq_callback cfg raw s).2.length ≤ 1 ∧
    ((cfg.max_ovf_count < s.overflow_count ∨
        cfg.max_diff < classb_diff cfg (classb_elapsed s.overflow_count raw)) →
      (classb_freq_callback cfg raw s).2 = [FaultEvent.freq_error]) ∧
    (¬(cfg.max_ovf_count < s.overflow_count ∨
        cfg.max_diff < classb_diff cfg (classb_elapsed s.overflow_count raw)) →
      (classb_freq_callback cfg raw s).2 = []) := by
  by_cases h1 : cfg.max_ovf_count < s.overflow_count
  · refine ⟨?_, ?_, ?_⟩ <;> simp [classb_freq_callback, h1]
  · by_cases h2 : cfg.max_diff < classb_diff cfg (classb_elapsed s.overflow_count raw)
    · refine ⟨?_, ?_, ?_⟩ <;> simp [classb_freq_callback, h1, h2]
    · refine ⟨?_, ?_, ?_⟩ <;> simp [classb_freq_callback, h1, h2]

/-- Claim C8 witness: a failing evaluation (deviation 300 over the
allowance 250) makes exactly one fault report. -/
theorem classb_C8_witness :
    (classb_freq_callback ⟨1000, 250, 0⟩ 1300 ⟨0⟩).2 = [FaultEvent.freq_error] :=
  (classb_C8_single_fault_path ⟨1000, 250, 0⟩ 1300 ⟨0⟩).2.1 (Or.inr (by decide))

/-- Claim C9: over every interleaving of the two (atomic) handlers, the
increments performed by the overflow accumulator are conserved: the sum of
the counts read by the evaluator plus the residual count equals the
initial count plus the number of overflow events, modulo the 16-bit
width — no increment is lost or double-counted. -/
theorem classb_C9_increment_conservation (cfg : FreqConfig) (s : FreqState)
    (es : List FreqEvent) :
    ((classb_reads s es).sum + (classb_run cfg s es).1.overflow_count) % 2 ^ 16 =
      (s.overflow_count + classb_ovf_events es) % 2 ^ 16 := by
  induction es generalizing s with
  | nil => simp [classb_reads, classb_run, classb_ovf_events]
  | cons e es ih =>
    cases e with
    | tc_ovf =>
      have h1 := ih (classb_freq_tc_callback s)
      have h2 : (classb_freq_tc_callback s).overflow_count =
          (s.overflow_count + 1) % 2 ^ 16 := rfl
      rw [h2] at h1
      have hrun : (classb_run cfg s (FreqEvent.tc_ovf :: es)).1 =
          (classb_run cfg (classb_freq_tc_callback s) es).1 := rfl
      rw [classb_reads, hrun, classb_ovf_events]
      omega
    | rtc_tick raw =>
      have h1 := ih ⟨0⟩
      have h0 : (⟨0⟩ : FreqState).overflow_count = 0 := rfl
      rw [h0] at h1
      have hrun : (classb_run cfg s (FreqEvent.rtc_tick raw :: es)).1 =
          (classb_run cfg ⟨0⟩ es).1 := rfl
      rw [classb_reads, hrun, classb_ovf_events, List.sum_cons]
      omega

/-- Claim C10: CLASSB_TC_MAX_OVF_COUNT is the 32-bit-wrapped sum shifted
right by 16 and then reduced modulo 2^16; the result always fits 16 bits,
and the 32-bit wrap is observable with both inputs individually
representable in 32 bits. -/
theorem classb_C10_max_ovf_width :
    (∀ count_ref max_diff : ℕ,
      CLASSB_TC_MAX_OVF_COUNT count_ref max_diff =
        ((count_ref + max_diff) % 2 ^ 32) / 2 ^ 16 ∧
      CLASSB_TC_MAX_OVF_COUNT count_ref max_diff < 2 ^ 16) ∧
    ((3000000000 : ℕ) < 2 ^ 32 ∧ (1500000000 : ℕ) < 2 ^ 32 ∧
      CLASSB_TC_MAX_OVF_COUNT 3000000000 1500000000 ≠
        (3000000000 + 1500000000) >>> 16) := by
  constructor
  · intro a b
    have hmod : (a + b) % 2 ^ 32 < 2 ^ 32 := Nat.mod_lt _ (by decide)
    have hdiv : ((a + b) % 2 ^ 32) / 2 ^ 16 < 2 ^ 16 := by omega
    rw [CLASSB_TC_MAX_OVF_COUNT, Nat.shiftRight_eq_div_pow, Nat.mod_eq_of_lt hdiv]
    exact ⟨rfl, hdiv⟩
  · exact ⟨by decide, by decide, by decide⟩

end ClassbFreq
